import Mathlib

/-!
Verification development for the podcast processing pipeline
(backend/utils/state.py, backend/services/{download,transcribe,clean,embeddings,debate}.py,
backend/app.py).

Modelling conventions of this shallow embedding:
* The per-podcast manifest (a JSON dict keyed by episode guid) is an association
  list `List (String × EpisodeRec)`; Python dict update is delete-then-append.
* The filesystem is a set of association lists keyed by path strings; paths are
  derived exactly as in backend/utils/paths.py (safe_name, stem, suffixes).
* Python float arithmetic on the small decimal constants used by the code
  (0.5, 0.7, 0.8, 0.1, 0.05) is modelled by exact rational arithmetic.
* External collaborators (HTTP audio transport, speech-to-text service, vector
  search, text-generation service) are oracles passed as function arguments;
  a `none` result models a raised exception / failed call.  The audio transport
  is modelled as a full-content server (no byte-range support), under which the
  resume handling in download.py reduces to a fresh full write.
* Raising an exception is modelled by an explicit error constructor carrying
  the state at the moment the exception escapes.
-/

/-! ## Association lists (Python dict / directory-of-files model) -/

def alGet {α : Type} : List (String × α) → String → Option α
  | [], _ => none
  | (k, v) :: t, key => if k = key then some v else alGet t key

def alDel {α : Type} : List (String × α) → String → List (String × α)
  | [], _ => []
  | (k, v) :: t, key => if k = key then alDel t key else (k, v) :: alDel t key

/-- Setting a key in a Python dict (value replaced wholesale); modelled as
delete-then-append, which is extensionally the same map. -/
def alSet {α : Type} (l : List (String × α)) (key : String) (v : α) : List (String × α) :=
  alDel l key ++ [(key, v)]

theorem alGet_append {α : Type} (l₁ l₂ : List (String × α)) (k : String) :
    alGet (l₁ ++ l₂) k = ((alGet l₁ k).rec (alGet l₂ k) fun v => some v) := by
  induction l₁ with
  | nil => simp [alGet]
  | cons h t ih =>
    obtain ⟨k', v⟩ := h
    by_cases hk : k' = k <;> simp [alGet, hk, ih]

theorem alGet_alDel_self {α : Type} (l : List (String × α)) (k : String) :
    alGet (alDel l k) k = none := by
  induction l with
  | nil => rfl
  | cons h t ih =>
    obtain ⟨k', v⟩ := h
    by_cases hk : k' = k <;> simp [alDel, alGet, hk, ih]

theorem alGet_alDel_ne {α : Type} (l : List (String × α)) (k k' : String) (h : k' ≠ k) :
    alGet (alDel l k) k' = alGet l k' := by
  induction l with
  | nil => rfl
  | cons hd t ih =>
    obtain ⟨k'', v⟩ := hd
    by_cases hk : k'' = k
    · subst hk
      simp [alDel, alGet, Ne.symm h, ih]
    · simp [alDel, alGet, hk, ih]

theorem alGet_alSet_self {α : Type} (l : List (String × α)) (k : String) (v : α) :
    alGet (alSet l k v) k = some v := by
  simp [alSet, alGet_append, alGet_alDel_self, alGet]

theorem alGet_alSet_ne {α : Type} (l : List (String × α)) (k k' : String) (v : α) (h : k' ≠ k) :
    alGet (alSet l k v) k' = alGet l k' := by
  simp [alSet, alGet_append, alGet_alDel_ne l k k' h, alGet, Ne.symm h]
  cases alGet l k' <;> simp

theorem alDel_append {α : Type} (l₁ l₂ : List (String × α)) (k : String) :
    alDel (l₁ ++ l₂) k = alDel l₁ k ++ alDel l₂ k := by
  induction l₁ with
  | nil => rfl
  | cons h t ih =>
    obtain ⟨k', v⟩ := h
    by_cases hk : k' = k <;> simp [alDel, hk, ih]

theorem alDel_alDel_self {α : Type} (l : List (String × α)) (k : String) :
    alDel (alDel l k) k = alDel l k := by
  induction l with
  | nil => rfl
  | cons h t ih =>
    obtain ⟨k', v⟩ := h
    by_cases hk : k' = k <;> simp [alDel, hk, ih]

theorem alDel_alSet_self {α : Type} (l : List (String × α)) (k : String) (v : α) :
    alDel (alSet l k v) k = alDel l k := by
  simp [alSet, alDel_append, alDel_alDel_self, alDel]

theorem alSet_alSet_self {α : Type} (l : List (String × α)) (k : String) (v v' : α) :
    alSet (alSet l k v) k v' = alSet l k v' := by
  simp [alSet, alDel_append, alDel_alDel_self, alDel]

theorem alGet_some_mem_keys {α : Type} (l : List (String × α)) (k : String) (v : α)
    (h : alGet l k = some v) : k ∈ l.map Prod.fst := by
  induction l with
  | nil => simp [alGet] at h
  | cons hd t ih =>
    obtain ⟨k', v'⟩ := hd
    by_cases hk : k' = k
    · subst hk; simp
    · simp [alGet, hk] at h
      simp [ih h]

/-! ## Episode ledger (backend/utils/state.py)

The manifest record for one episode.  The Python record is a dict; the fields
below are exactly the top-level keys this repository ever writes
(`add_podcasts`, `download_episode`, `transcribe_episode`, `clean_transcript`,
`build_embeddings`, `process_podcast`).  Absent keys are modelled by the
defaults ("" / none / []). -/

structure EpisodeRec where
  title : String := ""
  audio_url : String := ""
  publish_date : String := ""
  status : String := ""
  transcript_id : Option String := none
  files : List (String × String) := []
deriving DecidableEq, Repr

/-- The keyword arguments of one `update_episode_state(podcast, guid, **kwargs)`
call: `some v` means the key was passed (and its value is replaced wholesale),
`none` means it was not. -/
structure KwArgs where
  title : Option String := none
  audio_url : Option String := none
  publish_date : Option String := none
  status : Option String := none
  transcript_id : Option String := none
  files : Option (List (String × String)) := none
deriving DecidableEq, Repr

def Manifest : Type := List (String × EpisodeRec)

instance : DecidableEq Manifest := by unfold Manifest; infer_instance

def lookupEp (mf : Manifest) (guid : String) : Option EpisodeRec := alGet mf guid

/-- `epi.update(kwargs)`: each named field is replaced wholesale, unnamed
fields are kept. -/
def applyKw (e : EpisodeRec) (kw : KwArgs) : EpisodeRec :=
  { title := kw.title.getD e.title
    audio_url := kw.audio_url.getD e.audio_url
    publish_date := kw.publish_date.getD e.publish_date
    status := kw.status.getD e.status
    transcript_id := (kw.transcript_id.map some).getD e.transcript_id
    files := kw.files.getD e.files }

/-- `update_episode_state`: read-modify-write merge of the guid's record
(`mf["episodes"].get(guid, {})`, `epi.update(kwargs)`, store back). -/
def update_episode_state (mf : Manifest) (guid : String) (kw : KwArgs) : Manifest :=
  alSet mf guid (applyKw ((lookupEp mf guid).getD {}) kw)

/-- The fixed stage order of the ledger. -/
def stageOrder : List String := ["downloaded", "transcribed", "cleaned", "embedded", "pdf"]

/-- `list.index` returning `none` instead of raising `ValueError`. -/
def idxInList : List String → String → Option Nat
  | [], _ => none
  | h :: t, s => if h = s then some 0 else (idxInList t s).map (· + 1)

def stageIdx (s : String) : Option Nat := idxInList stageOrder s

/-- `episode_done_at_least` from backend/utils/state.py: compares the persisted
status against the fixed stage order; any `ValueError` from `list.index`
(status or stage not in the list) yields `False`, as does a missing record. -/
def episode_done_at_least (mf : Manifest) (guid stage : String) : Bool :=
  match lookupEp mf guid with
  | none => false
  | some epi =>
    match stageIdx epi.status, stageIdx stage with
    | some i, some j => decide (j ≤ i)
    | _, _ => false

theorem lookupEp_update_self (mf : Manifest) (guid : String) (kw : KwArgs) :
    lookupEp (update_episode_state mf guid kw) guid
      = some (applyKw ((lookupEp mf guid).getD {}) kw) := by
  unfold update_episode_state lookupEp
  exact alGet_alSet_self _ _ _

theorem lookupEp_update_ne (mf : Manifest) (guid g' : String) (kw : KwArgs) (h : g' ≠ guid) :
    lookupEp (update_episode_state mf guid kw) g' = lookupEp mf g' := by
  unfold update_episode_state lookupEp
  exact alGet_alSet_ne _ _ _ _ h

theorem applyKw_applyKw (e : EpisodeRec) (kw : KwArgs) :
    applyKw (applyKw e kw) kw = applyKw e kw := by
  unfold applyKw
  cases kw.title <;> cases kw.audio_url <;> cases kw.publish_date <;>
    cases kw.status <;> cases kw.transcript_id <;> cases kw.files <;> simp

theorem update_episode_state_idem (mf : Manifest) (guid : String) (kw : KwArgs) :
    update_episode_state (update_episode_state mf guid kw) guid kw
      = update_episode_state mf guid kw := by
  unfold update_episode_state
  rw [show lookupEp (alSet mf guid (applyKw ((lookupEp mf guid).getD {}) kw)) guid
        = some (applyKw ((lookupEp mf guid).getD {}) kw) from alGet_alSet_self _ _ _]
  simp [applyKw_applyKw, alSet_alSet_self]

/-! ## String helpers

Python string primitives, defined structurally over `List Char` so that
concrete evaluations reduce inside `decide` / `rfl` proofs.  All texts handled
by this repository are ASCII, where these agree with Python semantics. -/

/-- Python `str.lower()` (ASCII). -/
def pyLower (s : String) : String := String.mk (s.toList.map Char.toLower)

def listStartsWith : List Char → List Char → Bool
  | _, [] => true
  | [], _ :: _ => false
  | h :: t, p :: ps => h == p && listStartsWith t ps

def listContainsChars : List Char → List Char → Bool
  | [], pat => pat.isEmpty
  | h :: t, pat => listStartsWith (h :: t) pat || listContainsChars t pat

/-- Python `pat in hay` on strings. -/
def strContains (hay pat : String) : Bool := listContainsChars hay.toList pat.toList

/-- Python `s.startswith(pre)`. -/
def strStartsWith (s pre : String) : Bool := listStartsWith s.toList pre.toList

/-- Python `s.strip()` (whitespace both ends). -/
def pyStrip (s : String) : String :=
  String.mk (((s.toList.dropWhile Char.isWhitespace).reverse.dropWhile
    Char.isWhitespace).reverse)

/-- Python slicing `s[:n]` (by characters). -/
def strTake (s : String) (n : Nat) : String := String.mk (s.toList.take n)

/-! ## Artifact paths (backend/utils/paths.py) -/

def isSafeChar (c : Char) : Bool :=
  c.isAlphanum || c = '.' || c = '_' || c = '-'

/-- `SAFE_CHARS.sub("_", name)`: each maximal run of characters outside
`[A-Za-z0-9._-]` is replaced by a single underscore. -/
def collapseNonSafe : Bool → List Char → List Char
  | _, [] => []
  | prevUnsafe, c :: cs =>
    if isSafeChar c then c :: collapseNonSafe false cs
    else if prevUnsafe then collapseNonSafe true cs
    else '_' :: collapseNonSafe true cs

/-- `safe_name`: substitute unsafe runs with "_" and strip leading/trailing "_". -/
def safe_name (s : String) : String :=
  let subbed := collapseNonSafe false s.toList
  let stripped := ((subbed.dropWhile (· = '_')).reverse.dropWhile (· = '_')).reverse
  String.mk stripped

/-- `stem = safe_name((guid or title) or "episode")[:120]`. -/
def stemOf (guid title : String) : String :=
  strTake (safe_name (if guid ≠ "" then guid else if title ≠ "" then title else "episode")) 120

def episodesBase (podcast : String) : String := safe_name podcast ++ "/episodes/"

def audioPath (p g t : String) : String := episodesBase p ++ stemOf g t ++ ".mp3"

def partPath (p g t : String) : String := episodesBase p ++ stemOf g t ++ ".mp3.part"

def rawPath (p g t : String) : String := episodesBase p ++ stemOf g t ++ "_raw.txt"

def cleanPath (p g t : String) : String := episodesBase p ++ stemOf g t ++ "_clean.txt"

def faissPath (p : String) : String := safe_name p ++ "/embeddings.faiss"

/-! ## Pipeline world state

One podcast's durable state: its manifest plus the artifact files, each file
map keyed by the path strings above.  Audio bytes are `List Nat`, text files
are `String`.  `indexFs` holds the persisted metadata list (guid, title) of
the vector index when one exists. -/

structure World where
  manifest : Manifest
  audioFs : List (String × List Nat)
  partFs : List (String × List Nat)
  rawFs : List (String × String)
  cleanFs : List (String × String)
  indexFs : Option (List (String × String))
deriving DecidableEq

inductive DownloadResult where
  | ok (w : World) (path : String) (usedNetwork : Bool)
  | err (w : World) (msg : String)
deriving DecidableEq

inductive StageOut where
  | ok (w : World) (path : String)
  | err (w : World) (msg : String)
deriving DecidableEq

/-- `MIN_FILE_SIZE = 1024  # 1KB minimum for valid audio file` -/
def MIN_FILE_SIZE : Nat := 1024

/-- `_cleanup_failed_download`: remove the partial file; remove the final audio
file only when it exists and is below the minimum size. -/
def cleanupFailedDownload (w : World) (apath ppath : String) : World :=
  { w with
    partFs := alDel w.partFs ppath
    audioFs :=
      match alGet w.audioFs apath with
      | some bs => if bs.length < MIN_FILE_SIZE then alDel w.audioFs apath else w.audioFs
      | none => w.audioFs }

/-- `not audio_url or not audio_url.startswith(('http://', 'https://'))`,
negated (the empty string fails both startswith checks). -/
def validAudioUrl (u : String) : Bool :=
  strStartsWith u "http://" || strStartsWith u "https://"

/-- The body of `download_episode` past the already-downloaded check:
URL validation, transfer (via the `net` oracle; `none` = all attempts failed),
size verification, rename of the partial file, ledger update.  The oracle is a
full-content server, so the partial file is overwritten from scratch. -/
def downloadFetch (net : String → Option (List Nat)) (p : String) (w : World)
    (guid title audio_url : String) : DownloadResult :=
  let apath := audioPath p guid title
  let ppath := partPath p guid title
  if validAudioUrl audio_url = false then
    .err w ("Invalid audio URL: " ++ audio_url)
  else
    match net audio_url with
    | none => .err (cleanupFailedDownload w apath ppath) "Download failed after 3 attempts"
    | some bs =>
      if bs.length < MIN_FILE_SIZE then
        let wPart : World := { w with partFs := alSet w.partFs ppath bs }
        .err (cleanupFailedDownload wPart apath ppath)
          "Download failed after 3 attempts: Downloaded file too small"
      else
        let w1 : World := { w with partFs := alSet w.partFs ppath bs }
        let w2 : World :=
          { w1 with audioFs := alSet w1.audioFs apath bs, partFs := alDel w1.partFs ppath }
        let kw : KwArgs :=
          { title := some title, audio_url := some audio_url,
            status := some "downloaded", files := some [("audio", apath)] }
        let w3 : World := { w2 with manifest := update_episode_state w2.manifest guid kw }
        .ok w3 apath true

/-- `download_episode` (backend/services/download.py): skip when the ledger
shows `downloaded` AND the artifact exists AND its size strictly exceeds
`MIN_FILE_SIZE`; otherwise (re)download. -/
def download_episode (net : String → Option (List Nat)) (p : String) (w : World)
    (guid title audio_url : String) : DownloadResult :=
  let apath := audioPath p guid title
  if episode_done_at_least w.manifest guid "downloaded"
      && (match alGet w.audioFs apath with
          | some bs => decide (MIN_FILE_SIZE < bs.length)
          | none => false) then
    .ok w apath false
  else
    downloadFetch net p w guid title audio_url


/-- Polling phase of `transcribe_episode`: `pollJob tid = some text` models the
job reaching status `completed` with that text; `none` models a terminal
`error` status or a polling timeout (both raise).  On success the raw
transcript is written and ledger status and artifact path are updated
together. -/
def transcribePoll (pollJob : String → Option String) (w : World)
    (guid tid rpath : String) : StageOut :=
  match pollJob tid with
  | none => .err w "AssemblyAI transcription error"
  | some text =>
    if text = "" then .err w "Transcription completed but no text returned"
    else
      let w1 : World := { w with rawFs := alSet w.rawFs rpath text }
      let kw : KwArgs := { status := some "transcribed", files := some [("raw", rpath)] }
      .ok { w1 with manifest := update_episode_state w1.manifest guid kw } rpath

/-- Job submission phase of `transcribe_episode`: reuse a persisted
`transcript_id` if one exists; otherwise require the audio artifact, upload it
and create a job (`newJob`; `none` models an upload/submission failure), and
persist the job id before polling. -/
def transcribeRun (newJob : List Nat → Option String) (pollJob : String → Option String)
    (p : String) (w : World) (guid title rpath : String) : StageOut :=
  let epi := (lookupEp w.manifest guid).getD {}
  match epi.transcript_id with
  | some tid => transcribePoll pollJob w guid tid rpath
  | none =>
    match alGet w.audioFs (audioPath p guid title) with
    | none => .err w ("Audio file not found: " ++ audioPath p guid title)
    | some bs =>
      match newJob bs with
      | none => .err w "All upload methods failed"
      | some tid =>
        let kw : KwArgs := { transcript_id := some tid }
        let w1 : World := { w with manifest := update_episode_state w.manifest guid kw }
        transcribePoll pollJob w1 guid tid rpath

/-- `transcribe_episode` (backend/services/transcribe.py): short-circuit when
the ledger already shows `transcribed`; adopt an existing non-empty raw
transcript file; otherwise submit/resume a transcription job and poll. -/
def transcribe_episode (newJob : List Nat → Option String) (pollJob : String → Option String)
    (p : String) (w : World) (guid title : String) : StageOut :=
  let rpath := rawPath p guid title
  if episode_done_at_least w.manifest guid "transcribed" then
    .ok w rpath
  else
    match alGet w.rawFs rpath with
    | some txt =>
      if 0 < txt.length then
        let kw : KwArgs := { status := some "transcribed", files := some [("raw", rpath)] }
        .ok { w with manifest := update_episode_state w.manifest guid kw } rpath
      else
        transcribeRun newJob pollJob p w guid title rpath
    | none => transcribeRun newJob pollJob p w guid title rpath

/-- `re.sub(r"\s+", " ", txt)`: collapse each maximal whitespace run to one
space. -/
def collapseWsChars : Bool → List Char → List Char
  | _, [] => []
  | prevWs, c :: cs =>
    if c.isWhitespace then
      if prevWs then collapseWsChars true cs else ' ' :: collapseWsChars true cs
    else c :: collapseWsChars false cs

def collapseWs (s : String) : String := String.mk (collapseWsChars false s.toList)

/-- `clean_transcript` (backend/services/clean.py): short-circuit when the
ledger already shows `cleaned`; otherwise read the raw transcript (an
ABSENT raw file silently becomes the empty string), apply the ad/intro/outro
regex substitutions (abstracted as the `scrub` oracle), collapse whitespace,
strip, write the cleaned artifact and update the ledger. -/
def clean_transcript (scrub : String → String) (p : String) (w : World)
    (guid title : String) : StageOut :=
  let cpath := cleanPath p guid title
  if episode_done_at_least w.manifest guid "cleaned" then
    .ok w cpath
  else
    let txt := (alGet w.rawFs (rawPath p guid title)).getD ""
    let cleaned := pyStrip (collapseWs (scrub txt))
    let w1 : World := { w with cleanFs := alSet w.cleanFs cpath cleaned }
    let kw : KwArgs := { status := some "cleaned", files := some [("clean", cpath)] }
    .ok { w1 with manifest := update_episode_state w1.manifest guid kw } cpath

/-- The status-marking loop shared by `build_embeddings` (status "embedded")
and `process_podcast` (status "pdf"): one `update_episode_state` per guid. -/
def markAllStatus (keys : List String) (mf : Manifest) (s : String) : Manifest :=
  keys.foldl (fun m g => update_episode_state m g { status := some s }) mf

inductive BuildResult where
  | ok (w : World) (res : Option String)
  | err (w : World) (msg : String)
deriving DecidableEq

/-- The transcript-collection loop of `build_embeddings`:
`clean = Path(epi.get("files", {}).get("clean", ""))` followed by
`if clean.exists(): txt = clean.read_text(...)`.  A record with NO clean path
yields `Path("")`, which is `PosixPath(".")` — the working directory.  That
path EXISTS, and `read_text` on it raises `IsADirectoryError`, aborting the
loop (no state had been written yet).  A nonempty path either names an
existing cleaned artifact (read into the batch) or nothing on disk
(skipped). -/
def collectCleanTexts : List (String × EpisodeRec) → List (String × String) →
    Except String (List (String × String × String))
  | [], _ => .ok []
  | (g, e) :: rest, fs =>
    let cp := (alGet e.files "clean").getD ""
    if cp = "" then .error "IsADirectoryError: Is a directory: \x27.\x27"
    else
      match alGet fs cp with
      | some txt => (collectCleanTexts rest fs).map (fun l => (g, e.title, txt) :: l)
      | none => collectCleanTexts rest fs

/-- `build_embeddings` (backend/services/embeddings.py): if every episode is
already at least `embedded`, return the existing index path untouched;
otherwise collect all cleaned transcripts reachable through the manifest's
`files["clean"]` paths (raising `IsADirectoryError` — state untouched — when a
record has no clean path, see `collectCleanTexts`), rebuild and persist index
+ metadata, and mark EVERY episode's status `embedded`.  Returns
`.ok world (some path)` on success and `.ok world none` when there is no
text. -/
def build_embeddings (p : String) (w : World) : BuildResult :=
  if w.manifest.all (fun pr => episode_done_at_least w.manifest pr.1 "embedded") then
    .ok w (some (faissPath p))
  else
    match collectCleanTexts w.manifest w.cleanFs with
    | .error msg => .err w msg
    | .ok entries =>
      if entries.isEmpty then .ok w none
      else
        let w1 : World := { w with indexFs := some (entries.map (fun e => (e.1, e.2.1))) }
        .ok { w1 with
              manifest := markAllStatus (w1.manifest.map Prod.fst) w1.manifest "embedded" }
          (some (faissPath p))

/-- The publish step of `process_podcast` (backend/app.py lines 102-105):
after rendering the PDF, mark every episode's status `pdf`. -/
def markAllPdf (w : World) : World :=
  { w with manifest := markAllStatus (w.manifest.map Prod.fst) w.manifest "pdf" }

/-! ## Query answering layer (backend/services/debate.py)

Text generation is an external collaborator: each chat-completion call is an
oracle value `Option String` (`some` = the sanitized completion text, `none` =
a raised exception).  Persona files only shape prompt text, which no claim
observes, so prompt construction is not modelled. -/

/-- One search hit as returned by `search` (backend/services/embeddings.py):
`{title, guid, score}` where `score` is the raw faiss Euclidean distance
(results come back ordered by INCREASING distance; lower = closer). -/
structure Hit where
  title : String
  guid : String
  score : ℚ
deriving DecidableEq, Repr

/-- One pooled entry built by `get_relevant_episodes` (a "retrieved passage").
`text` is `hit.get('text', '')`; `search` hits carry no `text` key, so it is
always the empty string. -/
structure Passage where
  podcast : String
  title : String
  guid : String
  text : String
  score : ℚ
deriving DecidableEq, Repr

/-- Insert into a descending-by-score list, before the first element whose
score is not larger (keeping earlier elements first on ties). -/
def insertDesc (x : Passage) : List Passage → List Passage
  | [] => [x]
  | y :: t => if y.score ≤ x.score then x :: y :: t else y :: insertDesc x t

/-- Stable sort by score descending — the effect of Python
`list.sort(key=lambda x: x['score'], reverse=True)`. -/
def sortDesc : List Passage → List Passage
  | [] => []
  | x :: t => insertDesc x (sortDesc t)

/-- `get_relevant_episodes` (backend/services/debate.py): pool per-podcast
`search` hits, sort by the raw `score` value DESCENDING (Python stable sort
with `reverse=True`; no distance-to-similarity normalization happens), and
take the first `limit`. -/
def get_relevant_episodes (searchO : String → String → Nat → List Hit)
    (podcasts : List String) (query : String) (limit : Nat) : List Passage :=
  let all := (podcasts.map (fun p =>
    (searchO p query limit).map (fun h => Passage.mk p h.title h.guid "" h.score))).flatten
  (sortDesc all).take limit

def hospitality_keywords : List String :=
  ["hotel", "guest", "service", "hospitality", "restaurant",
   "booking", "check-in", "amenities", "concierge", "staff"]

/-- `max(ep.get('score', 0) for ep in episodes)` (only called on a non-empty
list; 0 on the empty list is never used). -/
def highestScore : List Passage → ℚ
  | [] => 0
  | e :: rest => rest.foldl (fun m x => max m x.score) e.score

/-- `calculate_confidence` (backend/services/debate.py), float arithmetic
modelled as exact rationals. -/
def calculate_confidence (episodes : List Passage) (query : String) : ℚ :=
  if episodes.isEmpty then 0
  else
    let base0 := min (highestScore episodes) 1
    let base1 :=
      if 2 ≤ (episodes.filter (fun e => (0.5 : ℚ) < e.score)).length then base0 + 0.1 else base0
    let base2 :=
      if hospitality_keywords.any (fun k => strContains (pyLower query) k) then base1 + 0.05
      else base1
    min base2 1

/-- The confidence formula as the spec states it (base `min(highest, 1)`,
+0.1 for two passages above 0.5, +0.05 for a domain keyword, clamp to 1;
0 with no passages).  Written independently of `calculate_confidence` for a
refinement comparison. -/
def confidenceSpec (episodes : List Passage) (query : String) : ℚ :=
  if episodes.isEmpty then 0
  else
    min (min (highestScore episodes) 1
      + (if 2 ≤ (episodes.filter (fun e => (0.5 : ℚ) < e.score)).length then 0.1 else 0)
      + (if hospitality_keywords.any (fun k => strContains (pyLower query) k) then 0.05 else 0)) 1

/-- `get_confidence_explanation`. -/
def get_confidence_explanation (episodes : List Passage) (confidence : ℚ) : String :=
  if 0.8 ≤ confidence then
    "High confidence based on " ++ toString episodes.length ++ " highly relevant episodes"
  else if 0.5 ≤ confidence then
    "Medium confidence based on " ++ toString episodes.length ++ " moderately relevant episodes"
  else if 0.3 ≤ confidence then
    "Low confidence based on " ++ toString episodes.length ++ " episodes with limited relevance"
  else "Very low confidence - drawing from general hospitality knowledge"

/-- `detect_scenario_type`: keyword classification of the query; affects
prompt structure only. -/
def detect_scenario_type (query : String) : String :=
  let q := pyLower query
  if ["trends", "identify", "research", "top 3", "shaping"].any (strContains q) then "research"
  else if ["questions", "interview", "craft", "preparing"].any (strContains q) then
    "question_crafting"
  else if ["advice", "advising", "recommend", "strategic"].any (strContains q) then "advisory"
  else if ["episode outline", "outline", "content creation"].any (strContains q) then
    "episode_outline"
  else if ["promo", "promotional", "script", "season launch"].any (strContains q) then
    "promotional_script"
  else if ["social media", "instagram", "twitter", "linkedin"].any (strContains q) then
    "social_media"
  else if ["newsletter", "weekly", "digest", "email"].any (strContains q) then "newsletter"
  else if ["general advice", "launching", "brand", "pillars"].any (strContains q) then
    "general_advice"
  else "conversational"

/-- One entry of `individual_responses` in the multi-persona flow. -/
structure IndResp where
  podcast : String
  response : String
  confidence : ℚ
  source : String
deriving DecidableEq, Repr

/-- The phrases by which `should_skip_synthesis` recognizes a fallback-mode
("creative") reply. -/
def creative_indicators : List String :=
  ["while this hasn\x27t", "this topic hasn\x27t been", "hasn\x27t come up in our recent episodes",
   "drawing from my broader", "from my hospitality experience", "this hasn\x27t been a focus"]

/-- An error reply: `"trouble accessing" in response_text.lower()`. -/
def isErrorResp (r : IndResp) : Bool := strContains (pyLower r.response) "trouble accessing"

/-- A fallback-mode reply: some creative indicator occurs in the lowercased
text. -/
def isCreativeResp (r : IndResp) : Bool :=
  creative_indicators.any (fun ind => strContains (pyLower r.response) ind)

/-- The counting loop of `should_skip_synthesis`:
`(creative_responses, total_valid_responses)`. -/
def countResponses : List IndResp → Nat × Nat
  | [] => (0, 0)
  | r :: rest =>
    let cv := countResponses rest
    if isErrorResp r then cv
    else (cv.1 + (if isCreativeResp r then 1 else 0), cv.2 + 1)

/-- `should_skip_synthesis` (backend/services/debate.py): skip when there are
no responses, no valid (non-error) responses, or the creative fraction is at
least 0.8. -/
def should_skip_synthesis (individual_responses : List IndResp) : Bool :=
  if individual_responses.isEmpty then true
  else
    let cv := countResponses individual_responses
    if cv.2 = 0 then true
    else decide ((0.8 : ℚ) ≤ (cv.1 : ℚ) / (cv.2 : ℚ))

/-- Spec-side count of valid (non-error) replies. -/
def validCount (rs : List IndResp) : Nat := (rs.filter (fun r => !isErrorResp r)).length

/-- Spec-side count of fallback-mode replies among the valid ones. -/
def creativeCount (rs : List IndResp) : Nat :=
  (rs.filter (fun r => !isErrorResp r && isCreativeResp r)).length

/-- Result record of `single_persona_answer_with_confidence`; the fields no
claim observes (explanation, per-episode metadata, timestamps) are omitted.
`processing_mode` is the `metadata["processing_mode"]` key, absent (`none`) in
the error branch. -/
structure SPResult where
  answer : String
  confidence : ℚ
  source : String
  episodes_count : Nat
  processing_mode : Option String
deriving DecidableEq, Repr

/-- `single_persona_answer_with_confidence` (backend/services/debate.py):
retrieve up to 3 passages, compute confidence, choose creative mode iff
confidence < 0.7, call the text-generation collaborator (`llm`; `none` models
an exception giving the in-persona apology with confidence 0.0 and source
"error"). -/
def single_persona_answer_with_confidence (searchO : String → String → Nat → List Hit)
    (llm : Option String) (podcast query : String) : SPResult :=
  let episodes := get_relevant_episodes searchO [podcast] query 3
  let confidence := calculate_confidence episodes query
  let useCreative := confidence < (0.7 : ℚ)
  match llm with
  | some text =>
    { answer := text
      confidence := confidence
      source := if useCreative then "creative" else "database"
      episodes_count := episodes.length
      processing_mode := some (if useCreative then "creative" else "content_based") }
  | none =>
    { answer := "Oh, what a wonderful question! ... technical trouble accessing my podcast treasure chest right now."
      confidence := 0
      source := "error"
      episodes_count := episodes.length
      processing_mode := none }

/-- The historical-query guard terms of `multi_persona_debate_with_confidence`. -/
def histTerms : List String := ["2023", "2022", "2021", "before 2024", "pre-2024"]

def histGuard (query : String) : Bool := histTerms.any (fun t => strContains (pyLower query) t)

/-- The fixed boundary-acknowledgment synthesis text. -/
def boundarySynthesis : String :=
  "Oh, I\x27d love to spill tea from those earlier years, but my podcast treasure chest starts in May 2024! How about we explore what\x27s been buzzing in hospitality since then?"

/-- `generate_simple_creative_response`: one transparent single-voice reply
(the honest fixed apology when the collaborator call fails). -/
def generate_simple_creative_response (llmSimple : Option String)
    (query : String) (podcasts : List String) : String :=
  match llmSimple with
  | some t => t
  | none =>
    "That\x27s an interesting question! While this hasn\x27t been a topic we\x27ve explored in our recent podcast episodes, I appreciate your curiosity. If you have any hospitality-related questions, I\x27d be happy to help with those."

/-- The per-podcast loop of `multi_persona_debate_with_confidence` building
`individual_responses` (`llmSingle p` is the completion oracle for podcast
`p`'s call). -/
def individualResponses (searchO : String → String → Nat → List Hit)
    (llmSingle : String → Option String) (podcasts : List String) (query : String) :
    List IndResp :=
  podcasts.map (fun p =>
    let r := single_persona_answer_with_confidence searchO (llmSingle p) p query
    IndResp.mk p r.answer r.confidence r.source)

/-- The result record of `multi_persona_debate_with_confidence`; fields no
claim observes are omitted.  `synthesis_skipped` is the metadata key of that
name: absent (`none`) in the boundary-guard branch. -/
structure DebateResult where
  synthesis : String
  individual_responses : List IndResp
  insights_count : Nat
  scenario_type : String
  episodes_referenced : Nat
  confidence : ℚ
  source : String
  explanation : String
  synthesis_skipped : Option Bool
deriving DecidableEq, Repr

/-- `multi_persona_debate_with_confidence` (backend/services/debate.py):
historical-query guard, pooled retrieval, per-podcast answers, and the
anti-fabrication gate deciding between a single-voice creative reply and a
synthesis over actual content (`llmSynth`; `none` models the exception
fallback text). -/
def multi_persona_debate_with_confidence (searchO : String → String → Nat → List Hit)
    (llmSingle : String → Option String) (llmSimple llmSynth : Option String)
    (podcasts : List String) (query : String) : DebateResult :=
  if histGuard query then
    { synthesis := boundarySynthesis
      individual_responses := []
      insights_count := 0
      scenario_type := "edge_case"
      episodes_referenced := 0
      confidence := 1
      source := "system_boundary"
      explanation := "Query outside available data range"
      synthesis_skipped := none }
  else
    let scenario := detect_scenario_type query
    let all_episodes := get_relevant_episodes searchO podcasts query 10
    let overall := calculate_confidence all_episodes query
    let responses := individualResponses searchO llmSingle podcasts query
    if should_skip_synthesis responses then
      { synthesis := generate_simple_creative_response llmSimple query podcasts
        individual_responses := responses
        insights_count := (responses.filter (fun r => 0 < r.confidence)).length
        scenario_type := scenario
        episodes_referenced := all_episodes.length
        confidence := 0
        source := "simple_creative"
        explanation := "Topic not covered in podcast episodes - providing general response"
        synthesis_skipped := some true }
    else
      { synthesis :=
          match llmSynth with
          | some t => t
          | none => "What a fascinating question! I\x27m having a bit of trouble accessing all my podcast notes right now, but I can tell there are some rich perspectives across these shows."
        individual_responses := responses
        insights_count := (responses.filter (fun r => 0 < r.confidence)).length
        scenario_type := scenario
        episodes_referenced := all_episodes.length
        confidence := overall
        source := "database"
        explanation := get_confidence_explanation all_episodes overall
        synthesis_skipped := some false }

/-! ## Supporting lemmas -/

theorem le_foldl_maxScore (l : List Passage) (a : ℚ) :
    a ≤ l.foldl (fun m x => max m x.score) a := by
  induction l generalizing a with
  | nil => exact le_refl a
  | cons x t ih => exact le_trans (le_max_left a x.score) (ih (max a x.score))

theorem highestScore_nonneg (episodes : List Passage) (hne : episodes ≠ [])
    (h : ∀ e ∈ episodes, (0 : ℚ) ≤ e.score) : 0 ≤ highestScore episodes := by
  cases episodes with
  | nil => exact absurd rfl hne
  | cons e rest =>
    exact le_trans (h e (List.mem_cons_self e rest)) (le_foldl_maxScore rest e.score)

/-- Claim C1: `stage_reached` (implemented as `episode_done_at_least`) is true
iff the persisted record exists and its status is at least `stage` in the
fixed order downloaded < transcribed < cleaned < embedded < pdf; in all other
cases — missing record, status string outside the list — it is false (the
function is total: the `ValueError` of `list.index` is caught). -/
theorem episode_done_at_least_iff (mf : Manifest) (guid stage : String) :
    episode_done_at_least mf guid stage = true ↔
      ∃ epi i j, lookupEp mf guid = some epi ∧ stageIdx epi.status = some i ∧
        stageIdx stage = some j ∧ j ≤ i := by
  unfold episode_done_at_least
  cases h : lookupEp mf guid with
  | none => simp [h]
  | some epi =>
    cases hi : stageIdx epi.status with
    | none => simp [h, hi]
    | some i =>
      cases hj : stageIdx stage with
      | none => simp [h, hi, hj]
      | some j => simp [h, hi, hj]

/-- Claim C4: `calculate_confidence` equals the spec formula — 0.0 with no
passages, otherwise min(highest, 1.0) + 0.1 (two passages above 0.5) + 0.05
(domain keyword), clamped to 1.0 — is never above 1, and is nonnegative for
passages with nonnegative (distance-derived) scores, hence lands in [0, 1]. -/
theorem calculate_confidence_correct (episodes : List Passage) (query : String) :
    calculate_confidence episodes query = confidenceSpec episodes query ∧
    calculate_confidence episodes query ≤ 1 ∧
    ((∀ e ∈ episodes, (0 : ℚ) ≤ e.score) → 0 ≤ calculate_confidence episodes query) := by
  refine ⟨?_, ?_, ?_⟩
  · unfold calculate_confidence confidenceSpec
    split_ifs <;> simp
  · unfold calculate_confidence
    split_ifs <;> simp [min_le_right]
  · intro h
    unfold calculate_confidence
    by_cases hne : episodes.isEmpty
    · simp [hne]
    · have h0 : 0 ≤ highestScore episodes :=
        highestScore_nonneg episodes (by simpa [List.isEmpty_iff] using hne) h
      have hbase : 0 ≤ min (highestScore episodes) 1 := le_min h0 (by norm_num)
      have heq : episodes.isEmpty = false := by simpa using hne
      simp only [heq, Bool.false_eq_true, if_false]
      split_ifs <;> exact le_min (by linarith) (by norm_num)

theorem calculate_confidence_correct_witness :
    (∀ e ∈ [Passage.mk "P" "t" "g" "" 0.6], (0 : ℚ) ≤ e.score) ∧
    0 ≤ calculate_confidence [Passage.mk "P" "t" "g" "" 0.6] "q" :=
  ⟨by intro e he; rw [List.mem_singleton] at he; subst he; norm_num,
   (calculate_confidence_correct [Passage.mk "P" "t" "g" "" 0.6] "q").2.2
     (by intro e he; rw [List.mem_singleton] at he; subst he; norm_num)⟩

/-- Claim C5: single-persona mode selection is a strict threshold on the
computed confidence — "database" (content) mode iff confidence ≥ 0.7,
"creative" (fallback) mode iff confidence < 0.7; in particular a lone
retrieved passage of similarity exactly 0.7 yields content mode, and one of
similarity 0.6999 yields fallback mode. -/
theorem mode_threshold_strict :
    (∀ (searchO : String → String → Nat → List Hit) (t podcast query : String),
      ((single_persona_answer_with_confidence searchO (some t) podcast query).source
          = "database" ↔
        (0.7 : ℚ) ≤ calculate_confidence (get_relevant_episodes searchO [podcast] query 3) query)
      ∧
      ((single_persona_answer_with_confidence searchO (some t) podcast query).source
          = "creative" ↔
        calculate_confidence (get_relevant_episodes searchO [podcast] query 3) query < 0.7)) ∧
    (single_persona_answer_with_confidence (fun _ _ _ => [Hit.mk "e" "g" 0.7])
        (some "a") "P" "q").source = "database" ∧
    (single_persona_answer_with_confidence (fun _ _ _ => [Hit.mk "e" "g" 0.6999])
        (some "a") "P" "q").source = "creative" := by
  have hep7 : get_relevant_episodes (fun _ _ _ => [Hit.mk "e" "g" (0.7 : ℚ)]) ["P"] "q" 3
      = [Passage.mk "P" "e" "g" "" 0.7] := rfl
  have hep69 : get_relevant_episodes (fun _ _ _ => [Hit.mk "e" "g" (0.6999 : ℚ)]) ["P"] "q" 3
      = [Passage.mk "P" "e" "g" "" 0.6999] := rfl
  have hkw : (hospitality_keywords.any fun k => strContains (pyLower "q") k) = false := by
    decide
  have hconf7 : calculate_confidence [Passage.mk "P" "e" "g" "" (0.7 : ℚ)] "q" = 0.7 := by
    unfold calculate_confidence highestScore
    rw [hkw]
    norm_num
  have hconf69 : calculate_confidence [Passage.mk "P" "e" "g" "" (0.6999 : ℚ)] "q" = 0.6999 := by
    unfold calculate_confidence highestScore
    rw [hkw]
    norm_num
  refine ⟨fun searchO t podcast query => ?_, ?_, ?_⟩
  case refine_2 =>
    simp only [single_persona_answer_with_confidence, hep7, hconf7]
    norm_num
  case refine_3 =>
    simp only [single_persona_answer_with_confidence, hep69, hconf69]
    norm_num
  simp only [single_persona_answer_with_confidence]
  by_cases hc :
      calculate_confidence (get_relevant_episodes searchO [podcast] query 3) query < (0.7 : ℚ)
  · rw [if_pos hc]
    exact ⟨iff_of_false (by decide) (not_le.mpr hc), iff_of_true rfl hc⟩
  · rw [if_neg hc]
    exact ⟨iff_of_true rfl (le_of_not_lt hc), iff_of_false (by decide) hc⟩

theorem countResponses_eq (rs : List IndResp) :
    countResponses rs = (creativeCount rs, validCount rs) := by
  induction rs with
  | nil => rfl
  | cons r t ih =>
    simp only [countResponses, ih, creativeCount, validCount, List.filter_cons]
    by_cases he : isErrorResp r = true
    · simp [he]
    · by_cases hcr : isCreativeResp r = true <;> simp [he, hcr]

/-- Claim C3: `should_skip_synthesis` is true iff there are zero valid
(non-error) replies — including the empty list — or the fraction of
fallback-mode replies among the valid ones is at least 0.8; 4 fallback out of
5 yields true, 1 fallback plus 4 content yields false; and whenever it is true
(and the historical guard did not fire), `multi_persona_debate_with_confidence`
skips synthesis and returns the single-voice `generate_simple_creative_response`
with source "simple_creative". -/
theorem should_skip_synthesis_gate :
    (∀ rs : List IndResp, should_skip_synthesis rs = true ↔
      (validCount rs = 0 ∨ (0.8 : ℚ) ≤ (creativeCount rs : ℚ) / (validCount rs : ℚ))) ∧
    should_skip_synthesis
      [IndResp.mk "P1" "While this hasn\x27t come up in our recent episodes, a thought." 0 "creative",
       IndResp.mk "P2" "While this hasn\x27t come up in our recent episodes, a thought." 0 "creative",
       IndResp.mk "P3" "While this hasn\x27t come up in our recent episodes, a thought." 0 "creative",
       IndResp.mk "P4" "While this hasn\x27t come up in our recent episodes, a thought." 0 "creative",
       IndResp.mk "P5" "In our recent episode about hotel trends, we discussed this." 0.9 "database"]
      = true ∧
    should_skip_synthesis
      [IndResp.mk "P1" "While this hasn\x27t come up in our recent episodes, a thought." 0 "creative",
       IndResp.mk "P2" "In our recent episode about hotel trends, we discussed this." 0.9 "database",
       IndResp.mk "P3" "In our recent episode about hotel trends, we discussed this." 0.9 "database",
       IndResp.mk "P4" "In our recent episode about hotel trends, we discussed this." 0.9 "database",
       IndResp.mk "P5" "In our recent episode about hotel trends, we discussed this." 0.9 "database"]
      = false ∧
    (∀ (searchO : String → String → Nat → List Hit) (llmSingle : String → Option String)
        (llmSimple llmSynth : Option String) (podcasts : List String) (query : String),
      histGuard query = false →
      should_skip_synthesis (individualResponses searchO llmSingle podcasts query) = true →
      (multi_persona_debate_with_confidence searchO llmSingle llmSimple llmSynth podcasts
          query).source = "simple_creative" ∧
      (multi_persona_debate_with_confidence searchO llmSingle llmSimple llmSynth podcasts
          query).synthesis_skipped = some true ∧
      (multi_persona_debate_with_confidence searchO llmSingle llmSimple llmSynth podcasts
          query).synthesis = generate_simple_creative_response llmSimple query podcasts) := by
  refine ⟨?_, ?_, ?_, ?_⟩
  · intro rs
    unfold should_skip_synthesis
    rw [countResponses_eq]
    cases hemp : rs.isEmpty with
    | true =>
      have : rs = [] := List.isEmpty_iff.mp hemp
      subst this
      simp [validCount]
    | false =>
      by_cases hv : validCount rs = 0
      · simp [hv]
      · simp [hv, decide_eq_true_eq]
  · have hc : countResponses
        [IndResp.mk "P1" "While this hasn\x27t come up in our recent episodes, a thought." 0 "creative",
         IndResp.mk "P2" "While this hasn\x27t come up in our recent episodes, a thought." 0 "creative",
         IndResp.mk "P3" "While this hasn\x27t come up in our recent episodes, a thought." 0 "creative",
         IndResp.mk "P4" "While this hasn\x27t come up in our recent episodes, a thought." 0 "creative",
         IndResp.mk "P5" "In our recent episode about hotel trends, we discussed this." 0.9 "database"]
        = (4, 5) := by decide
    simp only [should_skip_synthesis, hc]
    norm_num
  · have hc : countResponses
        [IndResp.mk "P1" "While this hasn\x27t come up in our recent episodes, a thought." 0 "creative",
         IndResp.mk "P2" "In our recent episode about hotel trends, we discussed this." 0.9 "database",
         IndResp.mk "P3" "In our recent episode about hotel trends, we discussed this." 0.9 "database",
         IndResp.mk "P4" "In our recent episode about hotel trends, we discussed this." 0.9 "database",
         IndResp.mk "P5" "In our recent episode about hotel trends, we discussed this." 0.9 "database"]
        = (1, 5) := by decide
    simp only [should_skip_synthesis, hc]
    norm_num
  · intro searchO llmSingle llmSimple llmSynth podcasts query h1 h2
    refine ⟨?_, ?_, ?_⟩ <;>
      simp only [multi_persona_debate_with_confidence, h1, h2, Bool.false_eq_true, if_false,
        if_true]

theorem should_skip_synthesis_gate_witness :
    histGuard "q" = false ∧
    should_skip_synthesis (individualResponses (fun _ _ _ => ([] : List Hit))
      (fun _ => some "While this hasn\x27t come up in our recent episodes, a thought.")
      ["A"] "q") = true ∧
    (multi_persona_debate_with_confidence (fun _ _ _ => ([] : List Hit))
      (fun _ => some "While this hasn\x27t come up in our recent episodes, a thought.")
      none none ["A"] "q").source = "simple_creative" := by
  have hg : histGuard "q" = false := by decide
  have hc : countResponses (individualResponses (fun _ _ _ => ([] : List Hit))
      (fun _ => some "While this hasn\x27t come up in our recent episodes, a thought.")
      ["A"] "q") = (1, 1) := by decide
  have hne : (individualResponses (fun _ _ _ => ([] : List Hit))
      (fun _ => some "While this hasn\x27t come up in our recent episodes, a thought.")
      ["A"] "q").isEmpty = false := by decide
  have hskip : should_skip_synthesis (individualResponses (fun _ _ _ => ([] : List Hit))
      (fun _ => some "While this hasn\x27t come up in our recent episodes, a thought.")
      ["A"] "q") = true := by
    simp only [should_skip_synthesis, hc, hne]
    norm_num
  exact ⟨hg, hskip,
    (should_skip_synthesis_gate.2.2.2 (fun _ _ _ => ([] : List Hit))
      (fun _ => some "While this hasn\x27t come up in our recent episodes, a thought.")
      none none ["A"] "q" hg hskip).1⟩

/-- Claim C6: a multi-podcast query containing "2022" (one of the fixed
pre-horizon terms) makes `multi_persona_debate_with_confidence` return the
fixed boundary-acknowledgment record with confidence 1.0, empty individual
responses and zero episodes referenced — for EVERY search / text-generation
oracle, i.e. regardless of index contents. -/
theorem boundary_guard_2022 :
    ∀ (searchO : String → String → Nat → List Hit) (llmSingle : String → Option String)
      (llmSimple llmSynth : Option String) (podcasts : List String) (query : String),
      strContains (pyLower query) "2022" = true →
      multi_persona_debate_with_confidence searchO llmSingle llmSimple llmSynth podcasts query
        = ⟨boundarySynthesis, [], 0, "edge_case", 0, 1, "system_boundary",
           "Query outside available data range", none⟩ := by
  intro searchO llmSingle llmSimple llmSynth podcasts query h
  have hg : histGuard query = true := by
    unfold histGuard
    refine List.any_eq_true.mpr ⟨"2022", ?_, h⟩
    unfold histTerms
    simp
  simp [multi_persona_debate_with_confidence, hg]

theorem boundary_guard_2022_witness :
    strContains (pyLower "what changed in 2022") "2022" = true ∧
    multi_persona_debate_with_confidence (fun _ _ _ => [Hit.mk "x" "g" 5])
      (fun _ => some "t") (some "s") (some "y") ["A", "B"] "what changed in 2022"
      = ⟨boundarySynthesis, [], 0, "edge_case", 0, 1, "system_boundary",
         "Query outside available data range", none⟩ :=
  ⟨by decide, boundary_guard_2022 (fun _ _ _ => [Hit.mk "x" "g" 5])
    (fun _ => some "t") (some "s") (some "y") ["A", "B"] "what changed in 2022" (by decide)⟩

/-- Claim C8 (code bug): `search` scores are raw Euclidean distances (lower =
closer), and `get_relevant_episodes` performs NO distance-to-similarity
normalization before sorting by score descending — so with pooled hits at
distances 0.1 (nearest) and 5 (farthest) the first returned passage is the
FARTHEST one, not the closest match the spec describes. -/
theorem get_relevant_episodes_farthest_first :
    get_relevant_episodes
      (fun _ _ _ => [Hit.mk "nearest" "g1" (0.1 : ℚ), Hit.mk "farthest" "g2" 5]) ["P"] "q" 5
      = [Passage.mk "P" "farthest" "g2" "" 5, Passage.mk "P" "nearest" "g1" "" 0.1] := by
  simp only [get_relevant_episodes, List.map, List.flatten, sortDesc, insertDesc]
  norm_num [List.take]

/-- Claim C10: `update_episode_state(podcast, guid, **kwargs)` leaves every
other guid's record unchanged, keeps each top-level field not named in kwargs,
replaces each named field wholesale — in particular a passed `files` map
OVERWRITES the stored one (no merge), so `files={"clean": ...}` discards a
previously recorded audio path. -/
theorem update_episode_state_frame :
    (∀ (mf : Manifest) (guid g' : String) (kw : KwArgs), g' ≠ guid →
        lookupEp (update_episode_state mf guid kw) g' = lookupEp mf g') ∧
    (∀ (mf : Manifest) (guid : String) (kw : KwArgs) (e : EpisodeRec),
        lookupEp mf guid = some e →
        lookupEp (update_episode_state mf guid kw) guid = some
          { title := kw.title.getD e.title
            audio_url := kw.audio_url.getD e.audio_url
            publish_date := kw.publish_date.getD e.publish_date
            status := kw.status.getD e.status
            transcript_id := (kw.transcript_id.map some).getD e.transcript_id
            files := kw.files.getD e.files }) ∧
    (∀ (mf : Manifest) (guid : String) (kw : KwArgs) (F : List (String × String))
        (e : EpisodeRec), kw.files = some F → lookupEp mf guid = some e →
        (lookupEp (update_episode_state mf guid kw) guid).map EpisodeRec.files = some F) ∧
    lookupEp (update_episode_state
        [("g", { status := "downloaded", files := [("audio", "a.mp3")] })] "g"
        { status := some "cleaned", files := some [("clean", "c.txt")] }) "g"
      = some { status := "cleaned", files := [("clean", "c.txt")] } := by
  refine ⟨?_, ?_, ?_, by decide⟩
  · intro mf guid g' kw h
    exact lookupEp_update_ne mf guid g' kw h
  · intro mf guid kw e he
    rw [lookupEp_update_self, he]
    rfl
  · intro mf guid kw F e hf he
    rw [lookupEp_update_self, he]
    simp [applyKw, hf]

theorem update_episode_state_frame_witness :
    ("h" : String) ≠ "g" ∧
    lookupEp (update_episode_state
        [("g", { status := "downloaded", files := [("audio", "a.mp3")] })] "g"
        { status := some "cleaned", files := some [("clean", "c.txt")] }) "h"
      = lookupEp [("g", ({ status := "downloaded", files := [("audio", "a.mp3")] } : EpisodeRec))] "h" ∧
    (lookupEp (update_episode_state
        [("g", { status := "downloaded", files := [("audio", "a.mp3")] })] "g"
        { status := some "cleaned", files := some [("clean", "c.txt")] }) "g").map
        EpisodeRec.files = some [("clean", "c.txt")] :=
  ⟨by decide,
   update_episode_state_frame.1 _ "g" "h" _ (by decide),
   update_episode_state_frame.2.2.1 _ "g"
     { status := some "cleaned", files := some [("clean", "c.txt")] } [("clean", "c.txt")]
     { status := "downloaded", files := [("audio", "a.mp3")] } rfl rfl⟩

theorem done_at_least_of_lookup_none (mf : Manifest) (g s : String)
    (h : lookupEp mf g = none) : episode_done_at_least mf g s = false := by
  unfold episode_done_at_least
  rw [h]

/-- Claim C9 (amended): `download_episode` raises on an empty or non-HTTP(S)
source URL and `transcribe_episode` raises when the audio artifact is missing
— each before writing any artifact or touching the ledger (shown here for an
episode with no ledger record).  `clean_transcript`, however, does NOT fail
fast on a missing raw transcript: it silently treats the transcript as the
empty string, writes a cleaned artifact and ADVANCES the ledger to status
"cleaned". -/
theorem fail_fast_amended :
    (∀ (net : String → Option (List Nat)) (p : String) (w : World) (guid title url : String),
        lookupEp w.manifest guid = none → validAudioUrl url = false →
        download_episode net p w guid title url = .err w ("Invalid audio URL: " ++ url)) ∧
    (∀ (newJob : List Nat → Option String) (pollJob : String → Option String)
        (p : String) (w : World) (guid title : String),
        lookupEp w.manifest guid = none →
        alGet w.rawFs (rawPath p guid title) = none →
        alGet w.audioFs (audioPath p guid title) = none →
        transcribe_episode newJob pollJob p w guid title
          = .err w ("Audio file not found: " ++ audioPath p guid title)) ∧
    (∀ (scrub : String → String) (p : String) (w : World) (guid title : String),
        lookupEp w.manifest guid = none →
        alGet w.rawFs (rawPath p guid title) = none →
        clean_transcript scrub p w guid title
          = .ok
              { w with
                cleanFs := alSet w.cleanFs (cleanPath p guid title)
                  (pyStrip (collapseWs (scrub "")))
                manifest := update_episode_state w.manifest guid
                  { status := some "cleaned",
                    files := some [("clean", cleanPath p guid title)] } }
              (cleanPath p guid title)) := by
  refine ⟨?_, ?_, ?_⟩
  · intro net p w guid title url hm hv
    simp only [download_episode, downloadFetch,
      done_at_least_of_lookup_none w.manifest guid "downloaded" hm, hv]
    simp
  · intro newJob pollJob p w guid title hm hraw haud
    simp only [transcribe_episode, transcribeRun,
      done_at_least_of_lookup_none w.manifest guid "transcribed" hm, hraw, haud, hm]
    simp [EpisodeRec.transcript_id]
  · intro scrub p w guid title hm hraw
    simp only [clean_transcript,
      done_at_least_of_lookup_none w.manifest guid "cleaned" hm, hraw]
    simp [Option.getD]

/-- Counterexample to claim C9 as stated: on a fresh world with NO raw
transcript file, `clean_transcript` does not raise — it returns successfully,
writes an (empty) cleaned artifact and advances the episode status to
"cleaned". -/
theorem clean_transcript_missing_raw_succeeds :
    clean_transcript id "P" (World.mk [] [] [] [] [] none) "g1" "t1"
      = .ok
          (World.mk
            [("g1", { title := "", audio_url := "", publish_date := "", status := "cleaned",
                      transcript_id := none,
                      files := [("clean", "P/episodes/g1_clean.txt")] })]
            [] [] [] [("P/episodes/g1_clean.txt", "")] none)
          "P/episodes/g1_clean.txt" := by decide

theorem fail_fast_witness :
    lookupEp (World.mk [] [] [] [] [] none).manifest "g1" = none ∧
    validAudioUrl "ftp://x/a.mp3" = false ∧
    download_episode (fun _ => none) "P" (World.mk [] [] [] [] [] none) "g1" "t1" "ftp://x/a.mp3"
      = .err (World.mk [] [] [] [] [] none) ("Invalid audio URL: " ++ "ftp://x/a.mp3") ∧
    transcribe_episode (fun _ => none) (fun _ => none) "P" (World.mk [] [] [] [] [] none)
        "g1" "t1"
      = .err (World.mk [] [] [] [] [] none)
          ("Audio file not found: " ++ audioPath "P" "g1" "t1") :=
  ⟨rfl, by decide,
   fail_fast_amended.1 (fun _ => none) "P" (World.mk [] [] [] [] [] none) "g1" "t1"
     "ftp://x/a.mp3" rfl (by decide),
   fail_fast_amended.2.1 (fun _ => none) (fun _ => none) "P" (World.mk [] [] [] [] [] none)
     "g1" "t1" rfl rfl rfl⟩

theorem applyKw_status_only (e : EpisodeRec) (s : String) :
    applyKw e { status := some s } = { e with status := s } := rfl

theorem markAllStatus_lookup (L : List String) (mf : Manifest) (s : String) :
    ∀ (g : String) (e : EpisodeRec), lookupEp mf g = some e →
      lookupEp (markAllStatus L mf s) g
        = some (if g ∈ L then { e with status := s } else e) := by
  induction L generalizing mf with
  | nil => intro g e h; simpa [markAllStatus] using h
  | cons k L' ih =>
    intro g e h
    have hstep : markAllStatus (k :: L') mf s
        = markAllStatus L' (update_episode_state mf k { status := some s }) s := rfl
    rw [hstep]
    by_cases hg : g = k
    · subst hg
      have h1 : lookupEp (update_episode_state mf g { status := some s }) g
          = some { e with status := s } := by
        rw [lookupEp_update_self, h]
        rfl
      have := ih (update_episode_state mf g { status := some s }) g { e with status := s } h1
      rw [this]
      by_cases hmem : g ∈ L' <;> simp [hmem]
    · have h1 : lookupEp (update_episode_state mf k { status := some s }) g = some e := by
        rw [lookupEp_update_ne mf k g _ hg]
        exact h
      have := ih (update_episode_state mf k { status := some s }) g e h1
      rw [this]
      simp [List.mem_cons, hg]

theorem idxInList_lt_length (l : List String) (s : String) (i : Nat)
    (h : idxInList l s = some i) : i < l.length := by
  induction l generalizing i with
  | nil => cases h
  | cons x t ih =>
    unfold idxInList at h
    by_cases hx : x = s
    · simp [hx] at h
      simp [List.length_cons]
      omega
    · simp [hx] at h
      obtain ⟨j, hj, hij⟩ := h
      have := ih j hj
      simp [List.length_cons]
      omega

/-- Claim C7 (amended): the pdf-marking loop of `process_podcast` never moves
a status backwards (it sets every recorded episode to "pdf", the maximum of
the stage order, and every stage index is ≤ 4).  `build_embeddings` never
regresses a status on its no-op and error paths: it returns the world
unchanged on the all-embedded short-circuit and when no transcript text is
found, and when it raises (`IsADirectoryError` from a record with no cleaned-
transcript path, since `Path("")` is the existing directory ".") the manifest
is untouched.  But on a successful rebuild it sets EVERY episode's status to
"embedded", which regresses episodes already at "pdf". -/
theorem status_monotonic_amended :
    (∀ (w : World) (g : String) (e : EpisodeRec) (i : Nat),
        lookupEp w.manifest g = some e → stageIdx e.status = some i →
        (lookupEp (markAllPdf w).manifest g).map EpisodeRec.status = some "pdf" ∧
        stageIdx "pdf" = some 4 ∧ i ≤ 4) ∧
    (∀ (p : String) (w : World) (w' : World) (r : Option String),
        build_embeddings p w = .ok w' r →
        (w'.manifest = w.manifest ∨
          (∀ (g : String) (e : EpisodeRec), lookupEp w.manifest g = some e →
            lookupEp w'.manifest g = some { e with status := "embedded" }))) ∧
    (∀ (p : String) (w : World) (w' : World) (msg : String),
        build_embeddings p w = .err w' msg → w' = w) := by
  refine ⟨?_, ?_, ?_⟩
  · intro w g e i he hi
    have hmem : g ∈ w.manifest.map Prod.fst := alGet_some_mem_keys w.manifest g e he
    have hlook := markAllStatus_lookup (w.manifest.map Prod.fst) w.manifest "pdf" g e he
    rw [if_pos hmem] at hlook
    refine ⟨?_, by decide, ?_⟩
    · show (lookupEp (markAllStatus (w.manifest.map Prod.fst) w.manifest "pdf") g).map
        EpisodeRec.status = some "pdf"
      rw [hlook]
      rfl
    · have h5 : i < stageOrder.length := idxInList_lt_length stageOrder e.status i hi
      simpa [stageOrder] using Nat.lt_succ_iff.mp (by simpa [stageOrder] using h5)
  · intro p w w' r h
    unfold build_embeddings at h
    by_cases hall :
        (w.manifest.all fun pr => episode_done_at_least w.manifest pr.1 "embedded") = true
    · rw [if_pos hall] at h
      cases h
      exact Or.inl rfl
    · rw [if_neg hall] at h
      cases hc : collectCleanTexts w.manifest w.cleanFs with
      | error msg =>
        simp only [hc] at h
        cases h
      | ok entries =>
        simp only [hc] at h
        by_cases hemp : entries.isEmpty = true
        · rw [if_pos hemp] at h
          cases h
          exact Or.inl rfl
        · rw [if_neg hemp] at h
          cases h
          right
          intro g e he
          have hmem : g ∈ w.manifest.map Prod.fst := alGet_some_mem_keys w.manifest g e he
          have hlook :=
            markAllStatus_lookup (w.manifest.map Prod.fst) w.manifest "embedded" g e he
          rw [if_pos hmem] at hlook
          exact hlook
  · intro p w w' msg h
    unfold build_embeddings at h
    by_cases hall :
        (w.manifest.all fun pr => episode_done_at_least w.manifest pr.1 "embedded") = true
    · rw [if_pos hall] at h
      cases h
    · rw [if_neg hall] at h
      cases hc : collectCleanTexts w.manifest w.cleanFs with
      | error m =>
        simp only [hc] at h
        cases h
        rfl
      | ok entries =>
        simp only [hc] at h
        by_cases hemp : entries.isEmpty = true
        · rw [if_pos hemp] at h
          cases h
        · rw [if_neg hemp] at h
          cases h

/-- Counterexample to claim C7 as stated: one episode already published
("pdf") with its cleaned transcript on disk, and one newly added episode at
"cleaned" whose cleaned transcript is also on disk.  Every record has a
nonempty clean path, so no `IsADirectoryError` is raised: `build_embeddings`
rebuilds successfully and regresses the published episode's status from "pdf"
(index 4) back to "embedded" (index 3). -/
theorem build_embeddings_regresses_pdf :
    (lookupEp (World.mk
        [("g1", { title := "t1", status := "pdf", files := [("clean", "c1.txt")] }),
         ("g2", { title := "t2", status := "cleaned", files := [("clean", "c2.txt")] })]
        [] [] [] [("c1.txt", "hello"), ("c2.txt", "world")] none).manifest "g1").map
        EpisodeRec.status = some "pdf" ∧
    build_embeddings "P" (World.mk
        [("g1", { title := "t1", status := "pdf", files := [("clean", "c1.txt")] }),
         ("g2", { title := "t2", status := "cleaned", files := [("clean", "c2.txt")] })]
        [] [] [] [("c1.txt", "hello"), ("c2.txt", "world")] none)
      = .ok (World.mk
          [("g1", { title := "t1", status := "embedded", files := [("clean", "c1.txt")] }),
           ("g2", { title := "t2", status := "embedded", files := [("clean", "c2.txt")] })]
          [] [] [] [("c1.txt", "hello"), ("c2.txt", "world")]
          (some [("g1", "t1"), ("g2", "t2")]))
        (some (faissPath "P")) ∧
    stageIdx "embedded" = some 3 ∧ stageIdx "pdf" = some 4 ∧ (3 : Nat) < 4 := by decide

theorem status_monotonic_witness :
    lookupEp (World.mk [("g1", { status := "cleaned" })] [] [] [] [] none).manifest "g1"
      = some { status := "cleaned" } ∧
    stageIdx (EpisodeRec.status { status := "cleaned" }) = some 2 ∧
    ((lookupEp (markAllPdf (World.mk [("g1", { status := "cleaned" })] [] [] [] [] none)).manifest
        "g1").map EpisodeRec.status = some "pdf" ∧
      stageIdx "pdf" = some 4 ∧ 2 ≤ 4) ∧
    ((World.mk
        [("g1", { title := "t1", status := "embedded", files := [("clean", "c1.txt")] }),
         ("g2", { title := "t2", status := "embedded", files := [("clean", "c2.txt")] })]
        [] [] [] [("c1.txt", "hello"), ("c2.txt", "world")]
        (some [("g1", "t1"), ("g2", "t2")])).manifest
      = (World.mk
        [("g1", { title := "t1", status := "pdf", files := [("clean", "c1.txt")] }),
         ("g2", { title := "t2", status := "cleaned", files := [("clean", "c2.txt")] })]
        [] [] [] [("c1.txt", "hello"), ("c2.txt", "world")] none).manifest ∨
      (∀ (g : String) (e : EpisodeRec),
        lookupEp (World.mk
          [("g1", { title := "t1", status := "pdf", files := [("clean", "c1.txt")] }),
           ("g2", { title := "t2", status := "cleaned", files := [("clean", "c2.txt")] })]
          [] [] [] [("c1.txt", "hello"), ("c2.txt", "world")] none).manifest g = some e →
        lookupEp (World.mk
          [("g1", { title := "t1", status := "embedded", files := [("clean", "c1.txt")] }),
           ("g2", { title := "t2", status := "embedded", files := [("clean", "c2.txt")] })]
          [] [] [] [("c1.txt", "hello"), ("c2.txt", "world")]
          (some [("g1", "t1"), ("g2", "t2")])).manifest g
          = some { e with status := "embedded" })) :=
  ⟨rfl, by decide,
   status_monotonic_amended.1 (World.mk [("g1", { status := "cleaned" })] [] [] [] [] none)
     "g1" { status := "cleaned" } 2 rfl (by decide),
   status_monotonic_amended.2.1 "P"
     (World.mk
       [("g1", { title := "t1", status := "pdf", files := [("clean", "c1.txt")] }),
        ("g2", { title := "t2", status := "cleaned", files := [("clean", "c2.txt")] })]
       [] [] [] [("c1.txt", "hello"), ("c2.txt", "world")] none)
     (World.mk
       [("g1", { title := "t1", status := "embedded", files := [("clean", "c1.txt")] }),
        ("g2", { title := "t2", status := "embedded", files := [("clean", "c2.txt")] })]
       [] [] [] [("c1.txt", "hello"), ("c2.txt", "world")]
       (some [("g1", "t1"), ("g2", "t2")]))
     (some (faissPath "P")) (by decide)⟩

theorem done_after_update (mf : Manifest) (g : String) (kw : KwArgs) (s stage : String)
    (i j : Nat) (hs : kw.status = some s) (hi : stageIdx s = some i)
    (hj : stageIdx stage = some j) (hle : j ≤ i) :
    episode_done_at_least (update_episode_state mf g kw) g stage = true := by
  unfold episode_done_at_least
  simp only [lookupEp_update_self]
  have hst : (applyKw ((lookupEp mf g).getD {}) kw).status = s := by
    simp [applyKw, hs]
  simp only [hst, hi, hj]
  simpa using hle

theorem transcribePoll_ok (pollJob : String → Option String) (w : World)
    (guid tid rpath : String) (w1 : World) (path : String)
    (h : transcribePoll pollJob w guid tid rpath = .ok w1 path) :
    episode_done_at_least w1.manifest guid "transcribed" = true ∧ path = rpath := by
  unfold transcribePoll at h
  cases hp : pollJob tid with
  | none => rw [hp] at h; cases h
  | some text =>
    simp only [hp] at h
    by_cases ht : text = ""
    · rw [if_pos ht] at h; cases h
    · rw [if_neg ht] at h
      cases h
      refine ⟨?_, rfl⟩
      exact done_after_update _ guid _ "transcribed" "transcribed" 1 1 rfl rfl rfl le_rfl

theorem transcribeRun_ok (newJob : List Nat → Option String) (pollJob : String → Option String)
    (p : String) (w : World) (guid title rpath : String) (w1 : World) (path : String)
    (h : transcribeRun newJob pollJob p w guid title rpath = .ok w1 path) :
    episode_done_at_least w1.manifest guid "transcribed" = true ∧ path = rpath := by
  unfold transcribeRun at h
  cases htid : ((lookupEp w.manifest guid).getD {}).transcript_id with
  | some tid =>
    simp only [htid] at h
    exact transcribePoll_ok pollJob w guid tid rpath w1 path h
  | none =>
    simp only [htid] at h
    cases haud : alGet w.audioFs (audioPath p guid title) with
    | none => simp only [haud] at h; cases h
    | some bs =>
      simp only [haud] at h
      cases hjob : newJob bs with
      | none => simp only [hjob] at h; cases h
      | some tid =>
        simp only [hjob] at h
        exact transcribePoll_ok pollJob _ guid tid rpath w1 path h

theorem transcribe_second_call (newJob : List Nat → Option String)
    (pollJob : String → Option String) (p : String) (w : World) (guid title : String)
    (w1 : World) (path : String)
    (h : transcribe_episode newJob pollJob p w guid title = .ok w1 path) :
    transcribe_episode newJob pollJob p w1 guid title = .ok w1 path := by
  unfold transcribe_episode at h ⊢
  by_cases hdone : episode_done_at_least w.manifest guid "transcribed" = true
  · rw [if_pos hdone] at h
    cases h
    rw [if_pos hdone]
  · rw [if_neg hdone] at h
    have key : episode_done_at_least w1.manifest guid "transcribed" = true ∧
        path = rawPath p guid title := by
      cases hraw : alGet w.rawFs (rawPath p guid title) with
      | some txt =>
        simp only [hraw] at h
        by_cases hlen : 0 < txt.length
        · rw [if_pos hlen] at h
          cases h
          refine ⟨?_, rfl⟩
          exact done_after_update _ guid _ "transcribed" "transcribed" 1 1 rfl rfl rfl le_rfl
        · rw [if_neg hlen] at h
          exact transcribeRun_ok newJob pollJob p w guid title _ w1 path h
      | none =>
        simp only [hraw] at h
        exact transcribeRun_ok newJob pollJob p w guid title _ w1 path h
    obtain ⟨hd1, hp1⟩ := key
    subst hp1
    rw [if_pos hd1]

theorem clean_second_call (scrub : String → String) (p : String) (w : World)
    (guid title : String) (w1 : World) (path : String)
    (h : clean_transcript scrub p w guid title = .ok w1 path) :
    clean_transcript scrub p w1 guid title = .ok w1 path := by
  unfold clean_transcript at h ⊢
  by_cases hdone : episode_done_at_least w.manifest guid "cleaned" = true
  · rw [if_pos hdone] at h
    cases h
    rw [if_pos hdone]
  · rw [if_neg hdone] at h
    cases h
    have hd1 : episode_done_at_least
        (update_episode_state w.manifest guid
          { status := some "cleaned", files := some [("clean", cleanPath p guid title)] })
        guid "cleaned" = true :=
      done_after_update _ guid _ "cleaned" "cleaned" 2 2 rfl rfl rfl le_rfl
    rw [if_pos hd1]

/-- Size of the audio artifact on disk (0 when absent). -/
def audioLen (w : World) (p g t : String) : Nat :=
  ((alGet w.audioFs (audioPath p g t)).map List.length).getD 0

theorem download_second_call (net : String → Option (List Nat)) (p : String) (w : World)
    (guid title url : String) (w1 : World) (path : String) (used : Bool)
    (h : download_episode net p w guid title url = .ok w1 path used) :
    download_episode net p w1 guid title url
      = .ok w1 path (decide (¬ MIN_FILE_SIZE < audioLen w1 p guid title)) := by
  simp only [download_episode] at h
  by_cases hcond : (episode_done_at_least w.manifest guid "downloaded" &&
      (match alGet w.audioFs (audioPath p guid title) with
       | some bs => decide (MIN_FILE_SIZE < bs.length)
       | none => false)) = true
  · rw [if_pos hcond] at h
    cases h
    have hcond' := hcond
    rw [Bool.and_eq_true] at hcond'
    obtain ⟨hdone, hmatch⟩ := hcond'
    cases halg : alGet w.audioFs (audioPath p guid title) with
    | none => simp only [halg] at hmatch; cases hmatch
    | some bs =>
      simp only [halg] at hmatch
      have hlt : MIN_FILE_SIZE < bs.length := of_decide_eq_true hmatch
      simp only [download_episode]
      rw [if_pos hcond]
      simp [audioLen, halg, hlt]
  · rw [if_neg hcond] at h
    simp only [downloadFetch] at h
    by_cases hvalid : validAudioUrl url = false
    · rw [if_pos hvalid] at h
      cases h
    · rw [if_neg hvalid] at h
      cases hnet : net url with
      | none => simp only [hnet] at h; cases h
      | some bs =>
        simp only [hnet] at h
        by_cases hsize : bs.length < MIN_FILE_SIZE
        · simp only [if_pos hsize] at h
          cases h
        · rw [if_neg hsize] at h
          cases h
          have hdone3 : episode_done_at_least
              (update_episode_state w.manifest guid
                { title := some title, audio_url := some url, status := some "downloaded",
                  files := some [("audio", audioPath p guid title)] })
              guid "downloaded" = true :=
            done_after_update _ guid _ "downloaded" "downloaded" 0 0 rfl rfl rfl le_rfl
          have haud3 : alGet (alSet w.audioFs (audioPath p guid title) bs)
              (audioPath p guid title) = some bs := alGet_alSet_self _ _ _
          by_cases hlt : MIN_FILE_SIZE < bs.length
          · have hcond3 : (episode_done_at_least
                (update_episode_state w.manifest guid
                  { title := some title, audio_url := some url, status := some "downloaded",
                    files := some [("audio", audioPath p guid title)] })
                guid "downloaded" &&
                (match alGet (alSet w.audioFs (audioPath p guid title) bs)
                    (audioPath p guid title) with
                 | some bs => decide (MIN_FILE_SIZE < bs.length)
                 | none => false)) = true := by
              simp [hdone3, haud3, hlt]
            simp only [download_episode]
            rw [if_pos hcond3]
            simp [audioLen, haud3, hlt]
          · have hcond3 : (episode_done_at_least
                (update_episode_state w.manifest guid
                  { title := some title, audio_url := some url, status := some "downloaded",
                    files := some [("audio", audioPath p guid title)] })
                guid "downloaded" &&
                (match alGet (alSet w.audioFs (audioPath p guid title) bs)
                    (audioPath p guid title) with
                 | some bs => decide (MIN_FILE_SIZE < bs.length)
                 | none => false)) = false := by
              simp [hdone3, haud3, hlt]
            simp only [download_episode, hcond3, Bool.false_eq_true, if_false]
            simp only [downloadFetch]
            rw [if_neg hvalid]
            simp only [hnet]
            rw [if_neg hsize]
            simp only [audioLen, haud3, hlt]
            simp [alSet_alSet_self, alDel_alSet_self, alDel_alDel_self,
              update_episode_state_idem]
            exact Nat.le_of_not_lt hlt

/-- Claim C2 (amended): a second invocation of transcribe or clean on the
same episode with no external change returns the same world and the same
artifact path (a pure no-op via the ledger short-circuit).  A second download
also returns the same world and path, but it is a no-op (`usedNetwork =
false`) only when the audio artifact strictly exceeds `MIN_FILE_SIZE` (1024)
bytes; at exactly 1024 bytes the skip check `size > MIN_FILE_SIZE` fails
while the download validation `size < MIN_FILE_SIZE` accepted the file, so
the episode is re-downloaded — still producing identical ledger state and
artifact content. -/
theorem pipeline_second_call_idempotent :
    (∀ (newJob : List Nat → Option String) (pollJob : String → Option String) (p : String)
        (w : World) (guid title : String) (w1 : World) (path : String),
        transcribe_episode newJob pollJob p w guid title = .ok w1 path →
        transcribe_episode newJob pollJob p w1 guid title = .ok w1 path) ∧
    (∀ (scrub : String → String) (p : String) (w : World) (guid title : String)
        (w1 : World) (path : String),
        clean_transcript scrub p w guid title = .ok w1 path →
        clean_transcript scrub p w1 guid title = .ok w1 path) ∧
    (∀ (net : String → Option (List Nat)) (p : String) (w : World) (guid title url : String)
        (w1 : World) (path : String) (used : Bool),
        download_episode net p w guid title url = .ok w1 path used →
        download_episode net p w1 guid title url
          = .ok w1 path (decide (¬ MIN_FILE_SIZE < audioLen w1 p guid title))) :=
  ⟨transcribe_second_call, clean_second_call, download_second_call⟩

set_option maxRecDepth 8192 in
/-- Counterexample to claim C2 as stated: a source file of exactly 1024 bytes
(= `MIN_FILE_SIZE`) downloads successfully, but the second call is NOT a
no-op — it hits the network again (`usedNetwork = true`), because the skip
check requires size STRICTLY greater than 1024 while the download validation
accepted exactly 1024.  Ledger and artifact state are nevertheless
unchanged. -/
theorem download_1024_second_call_not_noop :
    download_episode
        (fun u => if u = "https://x/a.mp3" then some (List.replicate 1024 0) else none)
        "P" (World.mk [] [] [] [] [] none) "g1" "t1" "https://x/a.mp3"
      = .ok (World.mk
          [("g1", { title := "t1", audio_url := "https://x/a.mp3", publish_date := "",
                    status := "downloaded", transcript_id := none,
                    files := [("audio", audioPath "P" "g1" "t1")] })]
          [(audioPath "P" "g1" "t1", List.replicate 1024 0)] [] [] [] none)
          (audioPath "P" "g1" "t1") true ∧
    download_episode
        (fun u => if u = "https://x/a.mp3" then some (List.replicate 1024 0) else none)
        "P" (World.mk
          [("g1", { title := "t1", audio_url := "https://x/a.mp3", publish_date := "",
                    status := "downloaded", transcript_id := none,
                    files := [("audio", audioPath "P" "g1" "t1")] })]
          [(audioPath "P" "g1" "t1", List.replicate 1024 0)] [] [] [] none)
        "g1" "t1" "https://x/a.mp3"
      = .ok (World.mk
          [("g1", { title := "t1", audio_url := "https://x/a.mp3", publish_date := "",
                    status := "downloaded", transcript_id := none,
                    files := [("audio", audioPath "P" "g1" "t1")] })]
          [(audioPath "P" "g1" "t1", List.replicate 1024 0)] [] [] [] none)
          (audioPath "P" "g1" "t1") true := by
  constructor
  · simp +decide [download_episode, downloadFetch, episode_done_at_least, lookupEp, alGet,
      alSet, alDel, update_episode_state, applyKw, validAudioUrl, MIN_FILE_SIZE,
      List.length_replicate]
  · simp +decide [download_episode, downloadFetch, episode_done_at_least, lookupEp, alGet,
      alSet, alDel, update_episode_state, applyKw, validAudioUrl, MIN_FILE_SIZE,
      List.length_replicate, stageIdx, idxInList, stageOrder]

set_option maxRecDepth 8192 in
theorem pipeline_second_call_idempotent_witness :
    (transcribe_episode (fun _ => none) (fun _ => none) "P"
        (World.mk [("g1", { status := "transcribed" })] [] [] [] [] none) "g1" "t1"
      = .ok (World.mk [("g1", { status := "transcribed" })] [] [] [] [] none)
          (rawPath "P" "g1" "t1")) ∧
    (clean_transcript id "P" (World.mk [("g1", { status := "cleaned" })] [] [] [] [] none)
        "g1" "t1"
      = .ok (World.mk [("g1", { status := "cleaned" })] [] [] [] [] none)
          (cleanPath "P" "g1" "t1")) ∧
    (download_episode (fun _ => none) "P"
        (World.mk [("g1", { status := "downloaded" })]
          [(audioPath "P" "g1" "t1", List.replicate 2000 0)] [] [] [] none) "g1" "t1"
        "https://x/a.mp3"
      = .ok (World.mk [("g1", { status := "downloaded" })]
            [(audioPath "P" "g1" "t1", List.replicate 2000 0)] [] [] [] none)
          (audioPath "P" "g1" "t1")
          (decide (¬ MIN_FILE_SIZE < audioLen
            (World.mk [("g1", { status := "downloaded" })]
              [(audioPath "P" "g1" "t1", List.replicate 2000 0)] [] [] [] none)
            "P" "g1" "t1"))) := by
  have h1 : transcribe_episode (fun _ => none) (fun _ => none) "P"
      (World.mk [("g1", { status := "transcribed" })] [] [] [] [] none) "g1" "t1"
      = .ok (World.mk [("g1", { status := "transcribed" })] [] [] [] [] none)
        (rawPath "P" "g1" "t1") := by
    simp +decide [transcribe_episode, episode_done_at_least, lookupEp, alGet, stageIdx,
      idxInList, stageOrder]
  have h2 : clean_transcript id "P"
      (World.mk [("g1", { status := "cleaned" })] [] [] [] [] none) "g1" "t1"
      = .ok (World.mk [("g1", { status := "cleaned" })] [] [] [] [] none)
        (cleanPath "P" "g1" "t1") := by
    simp +decide [clean_transcript, episode_done_at_least, lookupEp, alGet, stageIdx,
      idxInList, stageOrder]
  have h3 : download_episode (fun _ => none) "P"
      (World.mk [("g1", { status := "downloaded" })]
        [(audioPath "P" "g1" "t1", List.replicate 2000 0)] [] [] [] none) "g1" "t1"
      "https://x/a.mp3"
      = .ok (World.mk [("g1", { status := "downloaded" })]
          [(audioPath "P" "g1" "t1", List.replicate 2000 0)] [] [] [] none)
        (audioPath "P" "g1" "t1") false := by
    have halg : alGet (World.mk [("g1", { status := "downloaded" })]
        [(audioPath "P" "g1" "t1", List.replicate 2000 0)] [] [] [] none).audioFs
        (audioPath "P" "g1" "t1") = some (List.replicate 2000 0) := by
      simp [alGet]
    have hdone : episode_done_at_least (World.mk [("g1", { status := "downloaded" })]
        [(audioPath "P" "g1" "t1", List.replicate 2000 0)] [] [] [] none).manifest "g1"
        "downloaded" = true := by decide
    have hcond : (episode_done_at_least (World.mk [("g1", { status := "downloaded" })]
          [(audioPath "P" "g1" "t1", List.replicate 2000 0)] [] [] [] none).manifest "g1"
          "downloaded" &&
        (match alGet (World.mk [("g1", { status := "downloaded" })]
            [(audioPath "P" "g1" "t1", List.replicate 2000 0)] [] [] [] none).audioFs
            (audioPath "P" "g1" "t1") with
         | some bs => decide (MIN_FILE_SIZE < bs.length)
         | none => false)) = true := by
      simp only [halg, List.length_replicate, hdone]
      decide
    simp only [download_episode]
    rw [if_pos hcond]
  exact ⟨pipeline_second_call_idempotent.1 _ _ _ _ _ _ _ _ h1,
         pipeline_second_call_idempotent.2.1 _ _ _ _ _ _ _ h2,
         pipeline_second_call_idempotent.2.2 _ _ _ _ _ _ _ _ _ h3⟩
